import Mathlib

/-!
Verification of the Home Assistant websocket multiplexer
(`src/durable/haWebsocket.ts`) and its URL helper (`src/lib/haClient.ts`).

The Durable Object is shallowly embedded as an executable state machine:
the mutable fields of `HAWebsocketDurableObject` become a `DOState` record,
each event handler or method becomes a Lean function from state to state,
and the externally observable side effects (opening the upstream transport,
sending on a socket, closing a client socket) are collected as a trace of
`Act` values in the order the source performs them.

Environment nondeterminism (whether `fetch` yields an upgraded websocket,
whether sends on a given client socket succeed) is passed in as explicit
Boolean oracles.  The upstream socket `readyState` is modelled by an
`isOpen` flag on the socket handle; a transport error or close event is
delivered together with the runtime transition of the transport out of the
OPEN state, which is how the Workers runtime behaves.
-/

namespace HassioWorker

/-- A parsed URL, with the component fields `websocketUrl` touches:
`protocol` keeps its trailing colon as in the WHATWG URL API. -/
structure UrlModel where
  protocol : String
  host : String
  pathname : String
deriving DecidableEq

/-- Serialization of a `UrlModel`, mirroring `URL.toString()` on the
components we track. -/
def urlToString (u : UrlModel) : String :=
  u.protocol ++ "//" ++ u.host ++ u.pathname

/-- The URL mutation performed by `HomeAssistantClient.websocketUrl`
(`haClient.ts` lines 102-107): copy the configured base URL, rewrite the
protocol to `wss:` when the base protocol is `https:` and to `ws:`
otherwise, and set the pathname to `/api/websocket`. -/
def websocketUrlParts (base : UrlModel) : UrlModel :=
  { protocol := if base.protocol = "https:" then "wss:" else "ws:"
    host := base.host
    pathname := "/api/websocket" }

/-- `HomeAssistantClient.websocketUrl` returns the rewritten URL as a
string (`haUrl.toString()`). -/
def websocketUrl (base : UrlModel) : String :=
  urlToString (websocketUrlParts base)

/-- The environment bindings the multiplexer reads: the configured base
URL `HASSIO_URL` (already parsed) and the long-lived token. -/
structure HaEnv where
  hassioUrl : UrlModel
  token : String
deriving DecidableEq

/-- `HomeAssistantClient.buildWebsocketAuthMessage`, serialized the way
`JSON.stringify` serializes the object literal in the source. -/
def buildWebsocketAuthMessage (env : HaEnv) : String :=
  "\x7b\"type\":\"auth\",\"access_token\":\"" ++ env.token ++ "\"\x7d"

/-- A downstream client socket: its generated identifier and the messages
the multiplexer has successfully delivered to it, oldest first. -/
structure ClientSocket where
  cid : String
  received : List String
deriving DecidableEq

/-- The upstream socket handle: an identity for the connection instance
and whether its `readyState` is `OPEN`. -/
structure HASocket where
  sid : Nat
  isOpen : Bool
deriving DecidableEq

/-- The mutable fields of `HAWebsocketDurableObject`, plus two counters
that generate fresh socket identities and fresh client UUIDs. -/
structure DOState where
  clients : List ClientSocket
  haSocket : Option HASocket
  haConnected : Bool
  nextSid : Nat
  nextCid : Nat
deriving DecidableEq

/-- The field initializers of `HAWebsocketDurableObject`: empty client
set, no upstream socket, not connected. -/
def initState : DOState :=
  { clients := [], haSocket := none, haConnected := false
    nextSid := 0, nextCid := 0 }

/-- Externally observable actions, in source order. `openConn` is the
`fetch` upgrade that establishes the upstream transport; `acceptUp` is
`haSocket.accept()`; `markLive` is the `this.haConnected = true`
assignment; `upSend` is a send on the upstream socket; `clientSend` is a
send attempt to one client (`ok` records whether the send succeeded);
`closeClient` is a `client.close(code, reason)` attempt. -/
inductive Act where
  | openConn (sid : Nat) (url : String)
  | acceptUp (sid : Nat)
  | markLive
  | upSend (msg : String) (ok : Bool)
  | clientSend (cid : String) (msg : String) (ok : Bool)
  | closeClient (cid : String) (code : Nat) (reason : String)
deriving DecidableEq

/-- Recognizer for the transport-opening action. -/
def isOpenAct : Act → Bool
  | Act.openConn _ _ => true
  | _ => false

/-- Number of upstream transport connections opened in a trace. -/
def countOpens (acts : List Act) : Nat :=
  acts.countP isOpenAct

/-- `true` exactly when the guard at the top of `ensureHaConnection`
passes: `this.haSocket && this.haConnected`. -/
def Live (s : DOState) : Bool :=
  s.haSocket.isSome && s.haConnected

/-- Result of `ensureHaConnection`: the state after the call, the trace of
actions it performed, and whether it returned normally (`ok = false` means
it threw before mutating any field). -/
structure EnsureOut where
  state : DOState
  acts : List Act
  ok : Bool
deriving DecidableEq

/-- `ensureHaConnection` (`haWebsocket.ts` lines 48-102).  If an upstream
socket exists and `haConnected` is set, it returns at once.  Otherwise it
resolves the websocket URL, attempts the `fetch` upgrade (`fetchOk` is the
environment oracle for `response.webSocket` being present; when it is
absent the method throws with no field mutated), then accepts the socket,
stores it, sets `haConnected = true`, registers the message, close and
error listeners, and finally sends the authentication message. -/
def ensureHaConnection (env : HaEnv) (fetchOk : Bool) (s : DOState) : EnsureOut :=
  if s.haSocket.isSome && s.haConnected then
    { state := s, acts := [], ok := true }
  else if fetchOk then
    { state := { s with haSocket := some { sid := s.nextSid, isOpen := true },
                        haConnected := true,
                        nextSid := s.nextSid + 1 }
      acts := [Act.openConn s.nextSid (websocketUrl env.hassioUrl),
               Act.acceptUp s.nextSid,
               Act.markLive,
               Act.upSend (buildWebsocketAuthMessage env) true]
      ok := true }
  else
    { state := s, acts := [], ok := false }

/-- The JSON status message `attachClient` sends to a freshly accepted
client, serialized the way `JSON.stringify` serializes the object literal
in the source (`haWebsocket.ts` lines 185-192). -/
def connectionInfoMessage (cid : String) (connected : Bool) : String :=
  "\x7b\"type\":\"connection_info\",\"message\":\"Proxy connected to Home Assistant\",\"clientId\":\""
    ++ cid ++ "\",\"connected\":" ++ (if connected then "true" else "false") ++ "\x7d"

/-- Modelled from the spec: the three-field status message shape the spec
section 6 gives for the accept-time notification,
`\x7btype: "connection_info", clientId: <uuid>, connected: <bool>\x7d`,
serialized with the same conventions as the source message. -/
def connectionInfoSpecShape (cid : String) (connected : Bool) : String :=
  "\x7b\"type\":\"connection_info\",\"clientId\":\""
    ++ cid ++ "\",\"connected\":" ++ (if connected then "true" else "false") ++ "\x7d"

/-- `crypto.randomUUID()` is modelled by a counter-indexed fresh name. -/
def freshClientId (n : Nat) : String :=
  "uuid-" ++ toString n

/-- Result of `attachClient`: the state after the call, its action trace,
and the identifier assigned to the new client. -/
structure AttachOut where
  state : DOState
  acts : List Act
  cid : String
deriving DecidableEq

/-- `attachClient` (`haWebsocket.ts` lines 161-193): accept the server
side socket, assign a fresh id, add it to the client set, register its
message and close listeners, and send it the connection-status message. -/
def attachClient (s : DOState) : AttachOut :=
  let cid := freshClientId s.nextCid
  let msg := connectionInfoMessage cid s.haConnected
  { state := { s with clients := s.clients ++ [{ cid := cid, received := [msg] }],
                      nextCid := s.nextCid + 1 }
    acts := [Act.clientSend cid msg true]
    cid := cid }

/-- Outcome of `handleConnect` as seen by the HTTP caller. -/
inductive ConnectResult where
  | accepted (cid : String)
  | rejected
deriving DecidableEq

/-- Result of `handleConnect`. -/
structure ConnectOut where
  state : DOState
  acts : List Act
  result : ConnectResult
deriving DecidableEq

/-- `handleConnect` (`haWebsocket.ts` lines 138-152): await
`ensureHaConnection` first; when it throws the error propagates and no
client is registered; otherwise attach a new client socket and answer
with the 101 upgrade. -/
def handleConnect (env : HaEnv) (fetchOk : Bool) (s : DOState) : ConnectOut :=
  let e := ensureHaConnection env fetchOk s
  if e.ok then
    let a := attachClient e.state
    { state := a.state, acts := e.acts ++ a.acts
      result := ConnectResult.accepted a.cid }
  else
    { state := e.state, acts := e.acts, result := ConnectResult.rejected }

/-- The constructor (`haWebsocket.ts` lines 32-38): inside
`blockConcurrencyWhile` it runs `ensureHaConnection` on the freshly
initialized fields, before any request is served. -/
def construct (env : HaEnv) (fetchOk : Bool) : DOState × List Act :=
  let e := ensureHaConnection env fetchOk initState
  (e.state, e.acts)

/-- `broadcast`: the upstream message listener (`haWebsocket.ts` lines
71-79) iterates the client set and sends the data to each client inside
its own try/catch; `ok` is the per-client oracle for whether the send
succeeds.  A failed send is logged and nothing else happens. -/
def broadcast (data : String) (ok : String → Bool) (s : DOState) :
    DOState × List Act :=
  ({ s with clients := s.clients.map (fun c =>
       if ok c.cid then { c with received := c.received ++ [data] } else c) },
   s.clients.map (fun c => Act.clientSend c.cid data (ok c.cid)))

/-- Events the environment can deliver to the Durable Object after
construction.  `connect` is an incoming `/connect` request; `upMessage`,
`upClose` and `upError` are events on the current upstream socket (an
error or close event arrives together with the transport leaving the OPEN
state); `clientMsg` is a message event from a client socket with the
send-to-upstream success oracle; `clientCloseEv` is a client close
event. -/
inductive Ev where
  | connect (fetchOk : Bool)
  | upMessage (data : String) (ok : String → Bool)
  | upClose
  | upError
  | clientMsg (cid : String) (data : String) (ok : Bool)
  | clientCloseEv (cid : String)

/-- One event handler dispatch of the Durable Object, straight from the
listeners registered in the source. -/
def step (env : HaEnv) (ev : Ev) (s : DOState) : DOState × List Act :=
  match ev with
  | Ev.connect fetchOk =>
      let h := handleConnect env fetchOk s
      (h.state, h.acts)
  | Ev.upMessage data ok =>
      match s.haSocket with
      | none => (s, [])
      | some _ => broadcast data ok s
  | Ev.upClose =>
      match s.haSocket with
      | none => (s, [])
      | some _ =>
          ({ s with haConnected := false, haSocket := none, clients := [] },
           s.clients.map (fun c =>
             Act.closeClient c.cid 1012 "Home Assistant websocket closed"))
  | Ev.upError =>
      match s.haSocket with
      | none => (s, [])
      | some sock =>
          ({ s with haConnected := false
                    haSocket := some { sock with isOpen := false } }, [])
  | Ev.clientMsg _ data ok =>
      match s.haSocket with
      | none => (s, [])
      | some sock =>
          if sock.isOpen then (s, [Act.upSend data ok]) else (s, [])
  | Ev.clientCloseEv cid =>
      ({ s with clients := s.clients.filter (fun c => c.cid != cid) }, [])

/-- Run a list of events, concatenating the action traces. -/
def run (env : HaEnv) (evs : List Ev) (s : DOState) : DOState × List Act :=
  match evs with
  | [] => (s, [])
  | ev :: rest =>
      let r := step env ev s
      let r2 := run env rest r.1
      (r2.1, r.2 ++ r2.2)

/-- States the Durable Object can actually be in: reachable from some
construction by some event sequence. -/
def ReachableFrom (env : HaEnv) (s : DOState) : Prop :=
  ∃ fetchOk evs, s = (run env evs (construct env fetchOk).1).1

/-- A concrete environment used for concrete counterexample runs. -/
def envC : HaEnv :=
  { hassioUrl := { protocol := "http:", host := "ha.local:8123", pathname := "/" }
    token := "TOKEN" }

/-- Recognizer for the connect event. -/
def isConnectEv : Ev → Bool
  | Ev.connect _ => true
  | _ => false

/-- A sequence of downstream connect requests with the given fetch
outcomes. -/
def connectEvents (fs : List Bool) : List Ev :=
  fs.map Ev.connect

theorem countOpens_append (l1 l2 : List Act) :
    countOpens (l1 ++ l2) = countOpens l1 + countOpens l2 := by
  simp [countOpens, List.countP_append]

theorem countOpens_eq_zero {l : List Act}
    (h : ∀ a ∈ l, isOpenAct a = false) : countOpens l = 0 := by
  simp only [countOpens, List.countP_eq_zero]
  intro a ha
  simp [h a ha]

theorem attachClient_haSocket (s : DOState) :
    (attachClient s).state.haSocket = s.haSocket := rfl

theorem attachClient_haConnected (s : DOState) :
    (attachClient s).state.haConnected = s.haConnected := rfl

theorem attachClient_countOpens (s : DOState) :
    countOpens (attachClient s).acts = 0 := rfl

/-- When the guard of `ensureHaConnection` passes, `handleConnect` skips
straight to `attachClient`. -/
theorem handleConnect_of_live (env : HaEnv) (fetchOk : Bool) (s : DOState)
    (h : Live s = true) :
    handleConnect env fetchOk s
      = { state := (attachClient s).state, acts := (attachClient s).acts,
          result := ConnectResult.accepted (attachClient s).cid } := by
  unfold Live at h
  simp [handleConnect, ensureHaConnection, h]

/-- C2: while the current upstream handle is considered live (`haSocket`
non-null and `haConnected` true), no event handler of the Durable Object
opens a new upstream connection, so at most the one stored handle is ever
live at an instant. -/
theorem c2_no_open_while_live (env : HaEnv) (ev : Ev) (s : DOState)
    (h : Live s = true) :
    countOpens (step env ev s).2 = 0 := by
  cases ev with
  | connect fetchOk =>
      rw [step, handleConnect_of_live env fetchOk s h]
      exact attachClient_countOpens s
  | upMessage data ok =>
      cases hs : s.haSocket with
      | none => simp [step, hs, countOpens]
      | some sock =>
          simp only [step, hs, broadcast]
          apply countOpens_eq_zero
          intro a ha
          obtain ⟨c, _, rfl⟩ := List.mem_map.mp ha
          rfl
  | upClose =>
      cases hs : s.haSocket with
      | none => simp [step, hs, countOpens]
      | some sock =>
          simp only [step, hs]
          apply countOpens_eq_zero
          intro a ha
          obtain ⟨c, _, rfl⟩ := List.mem_map.mp ha
          rfl
  | upError =>
      cases hs : s.haSocket with
      | none => simp [step, hs, countOpens]
      | some sock => simp [step, hs, countOpens]
  | clientMsg cid data ok =>
      cases hs : s.haSocket with
      | none => simp [step, hs, countOpens]
      | some sock =>
          by_cases ho : sock.isOpen <;>
            simp [step, hs, ho, countOpens, List.countP_cons, isOpenAct]
  | clientCloseEv cid =>
      simp [step, countOpens]

/-- Witness for C2 at a live state obtained from a successful
construction. -/
theorem c2_witness :
    Live (construct envC true).1 = true
    ∧ countOpens (step envC Ev.upClose (construct envC true).1).2 = 0 :=
  ⟨by decide, c2_no_open_while_live envC Ev.upClose (construct envC true).1 (by decide)⟩

/-- C1: from a live state, any sequence of downstream connect requests
(with arbitrary fetch outcomes) opens zero new upstream connections,
keeps the very same upstream handle, and leaves the session live: each
`ensureHaConnection` call returns through its guard. -/
theorem c1_no_reopen_while_live (env : HaEnv) (fs : List Bool) (s : DOState)
    (h : Live s = true) :
    countOpens (run env (connectEvents fs) s).2 = 0
    ∧ (run env (connectEvents fs) s).1.haSocket = s.haSocket
    ∧ Live (run env (connectEvents fs) s).1 = true := by
  induction fs generalizing s with
  | nil => simpa [connectEvents, run, countOpens] using h
  | cons f rest ih =>
      have hlive2 : Live (attachClient s).state = true := by
        unfold Live at h ⊢
        rw [attachClient_haSocket, attachClient_haConnected]
        exact h
      have ihr := ih (attachClient s).state hlive2
      simp only [connectEvents, List.map_cons, run, step,
        handleConnect_of_live env f s h] at *
      refine ⟨?_, ?_, ihr.2.2⟩
      · rw [countOpens_append, attachClient_countOpens, ihr.1]
      · rw [ihr.2.1, attachClient_haSocket]

/-- Witness for C1: two further connect calls from a live state open no
new connection. -/
theorem c1_witness :
    Live (construct envC true).1 = true
    ∧ (countOpens (run envC (connectEvents [true, false]) (construct envC true).1).2 = 0
        ∧ (run envC (connectEvents [true, false]) (construct envC true).1).1.haSocket
            = (construct envC true).1.haSocket
        ∧ Live (run envC (connectEvents [true, false]) (construct envC true).1).1 = true) :=
  ⟨by decide, c1_no_reopen_while_live envC [true, false] (construct envC true).1 (by decide)⟩

/-- C6: when `ensureHaConnection` fails (session not live and the fetch
upgrade yields no socket), `handleConnect` propagates the error: the
request is rejected and the state, in particular the active client set,
is exactly as before. -/
theorem c6_reject_without_registration (env : HaEnv) (s : DOState)
    (h : Live s = false) :
    (handleConnect env false s).result = ConnectResult.rejected
    ∧ (handleConnect env false s).state = s
    ∧ (handleConnect env false s).state.clients = s.clients := by
  unfold Live at h
  simp [handleConnect, ensureHaConnection, h]

/-- Witness for C6 at the initial state. -/
theorem c6_witness :
    Live initState = false
    ∧ ((handleConnect envC false initState).result = ConnectResult.rejected
        ∧ (handleConnect envC false initState).state = initState
        ∧ (handleConnect envC false initState).state.clients = initState.clients) :=
  ⟨by decide, c6_reject_without_registration envC initState (by decide)⟩

/-- C8: broadcasting one upstream message attempts a send to every client
in the set, each under its own try/catch, so per-client failures abort
nothing; the client identifiers in the set and the upstream fields are
unchanged by the broadcast. -/
theorem c8_broadcast_independent (env : HaEnv) (s : DOState) (data : String)
    (ok : String → Bool) (sock : HASocket) (h : s.haSocket = some sock) :
    (step env (Ev.upMessage data ok) s).2
      = s.clients.map (fun c => Act.clientSend c.cid data (ok c.cid))
    ∧ (step env (Ev.upMessage data ok) s).1.clients.map (fun c => c.cid)
      = s.clients.map (fun c => c.cid)
    ∧ (step env (Ev.upMessage data ok) s).1.haSocket = s.haSocket
    ∧ (step env (Ev.upMessage data ok) s).1.haConnected = s.haConnected := by
  refine ⟨by simp [step, h, broadcast], ?_, by simp [step, h, broadcast],
    by simp [step, h, broadcast]⟩
  simp only [step, h, broadcast, List.map_map]
  apply List.map_congr_left
  intro c _
  by_cases hc : ok c.cid <;> simp [hc]

/-- The state after a construction and two accepted connects: live, with
two registered clients. -/
def twoClientState : DOState :=
  (run envC [Ev.connect true, Ev.connect true] (construct envC true).1).1

/-- A send oracle that fails for the first client and succeeds for the
second. -/
def failFirstOracle : String → Bool :=
  fun cid => cid == "uuid-1"

/-- Witness for C8: with two clients and a send failure on the first,
both clients still get a delivery attempt and the set is unchanged. -/
theorem c8_witness :
    twoClientState.haSocket = some { sid := 0, isOpen := true }
    ∧ ((step envC (Ev.upMessage "ping" failFirstOracle) twoClientState).2
        = twoClientState.clients.map
            (fun c => Act.clientSend c.cid "ping" (failFirstOracle c.cid))
      ∧ (step envC (Ev.upMessage "ping" failFirstOracle) twoClientState).1.clients.map
            (fun c => c.cid)
          = twoClientState.clients.map (fun c => c.cid)
      ∧ (step envC (Ev.upMessage "ping" failFirstOracle) twoClientState).1.haSocket
          = twoClientState.haSocket
      ∧ (step envC (Ev.upMessage "ping" failFirstOracle) twoClientState).1.haConnected
          = twoClientState.haConnected) :=
  ⟨by decide, c8_broadcast_independent envC twoClientState "ping" failFirstOracle
    { sid := 0, isOpen := true } (by decide)⟩

/-- In every reachable state the stored upstream socket is in the OPEN
state exactly when `haConnected` is set: an error event clears both
together, a close event drops the socket, and a fresh connection starts
open and connected. -/
def SockInv (s : DOState) : Prop :=
  ∀ sock, s.haSocket = some sock → sock.isOpen = s.haConnected

theorem sockInv_initState : SockInv initState := by
  intro sock h
  simp [initState] at h

theorem sockInv_ensure (env : HaEnv) (fetchOk : Bool) (s : DOState)
    (h : SockInv s) : SockInv (ensureHaConnection env fetchOk s).state := by
  unfold ensureHaConnection
  by_cases hg : (s.haSocket.isSome && s.haConnected) = true
  · simpa [hg] using h
  · by_cases hf : fetchOk = true
    · intro sock hs
      simp [hg, hf] at hs
      simp [hg, hf, ← hs]
    · simp only [Bool.not_eq_true] at hf
      simpa [hg, hf] using h

theorem sockInv_step (env : HaEnv) (ev : Ev) (s : DOState)
    (h : SockInv s) : SockInv (step env ev s).1 := by
  cases ev with
  | connect fetchOk =>
      have he := sockInv_ensure env fetchOk s h
      intro sock hs
      simp only [step, handleConnect] at hs ⊢
      by_cases hok : (ensureHaConnection env fetchOk s).ok = true
      · rw [if_pos hok] at hs ⊢
        rw [attachClient_haSocket] at hs
        rw [attachClient_haConnected]
        exact he sock hs
      · rw [if_neg hok] at hs ⊢
        exact he sock hs
  | upMessage data ok =>
      cases hsock : s.haSocket with
      | none => simpa [step, hsock] using h
      | some sock0 =>
          intro sock hs
          simp only [step, hsock, broadcast] at hs ⊢
          exact h sock (hsock.trans (by rw [hs]))
  | upClose =>
      cases hsock : s.haSocket with
      | none => simpa [step, hsock] using h
      | some sock0 =>
          intro sock hs
          simp [step, hsock] at hs
  | upError =>
      cases hsock : s.haSocket with
      | none => simpa [step, hsock] using h
      | some sock0 =>
          intro sock hs
          simp only [step, hsock, Option.some.injEq] at hs
          simp [step, hsock, ← hs]
  | clientMsg cid data ok =>
      cases hsock : s.haSocket with
      | none => simpa [step, hsock] using h
      | some sock0 =>
          by_cases ho : sock0.isOpen = true <;>
            simpa [step, hsock, ho] using h
  | clientCloseEv cid =>
      intro sock hs
      simp only [step] at hs ⊢
      exact h sock hs

theorem sockInv_run (env : HaEnv) (evs : List Ev) (s : DOState)
    (h : SockInv s) : SockInv (run env evs s).1 := by
  induction evs generalizing s with
  | nil => simpa [run] using h
  | cons ev rest ih =>
      simp only [run]
      exact ih (step env ev s).1 (sockInv_step env ev s h)

theorem reachable_sockInv (env : HaEnv) (s : DOState)
    (h : ReachableFrom env s) : SockInv s := by
  obtain ⟨fetchOk, evs, rfl⟩ := h
  exact sockInv_run env evs (construct env fetchOk).1
    (sockInv_ensure env fetchOk initState sockInv_initState)

/-- C7: in any reachable state whose session is not live, a client
message event is a no-op: the guard in the client message listener
returns before touching the upstream socket, so nothing is forwarded,
nothing is queued, nothing is sent back, and the state is unchanged. -/
theorem c7_drop_when_not_live (env : HaEnv) (s : DOState) (cid data : String)
    (ok : Bool) (hr : ReachableFrom env s) (h : Live s = false) :
    step env (Ev.clientMsg cid data ok) s = (s, []) := by
  have hinv := reachable_sockInv env s hr
  cases hsock : s.haSocket with
  | none => simp [step, hsock]
  | some sock =>
      have hc : s.haConnected = false := by
        unfold Live at h
        simpa [hsock] using h
      have hopen : sock.isOpen = false := by
        rw [hinv sock hsock, hc]
      simp [step, hsock, hopen]

/-- Witness for C7 at the reachable not-live state left by a failed
construction. -/
theorem c7_witness :
    Live initState = false
    ∧ step envC (Ev.clientMsg "c" "m" true) initState = (initState, []) :=
  ⟨by decide, c7_drop_when_not_live envC initState "c" "m" true
    ⟨false, [], rfl⟩ (by decide)⟩

/-- C3 counterexample: in the action trace of a successful connection
attempt, `this.haConnected = true` (index 2) happens strictly before the
authentication message is sent (index 3), and no upstream send precedes
the mark: contrary to the claim, the session is observed live before the
handshake has been sent, let alone accepted. -/
theorem c3_counterexample :
    ((construct envC true).2.take 3).all
        (fun a => match a with | Act.upSend _ _ => false | _ => true) = true
    ∧ (construct envC true).2[2]? = some Act.markLive
    ∧ (construct envC true).2[3]?
        = some (Act.upSend (buildWebsocketAuthMessage envC) true) := by
  refine ⟨by decide, by decide, by decide⟩

/-- C3 as amended: in every successful fresh connection attempt, the
session is marked live immediately after the transport accepts the
socket and before the authentication message is sent; the
authentication send is the last action of `ensureHaConnection`. -/
theorem c3_marked_live_before_auth (env : HaEnv) (fetchOk : Bool) (s : DOState)
    (hl : Live s = false) (hf : fetchOk = true) :
    (ensureHaConnection env fetchOk s).acts[1]? = some (Act.acceptUp s.nextSid)
    ∧ (ensureHaConnection env fetchOk s).acts[2]? = some Act.markLive
    ∧ (ensureHaConnection env fetchOk s).acts[3]?
        = some (Act.upSend (buildWebsocketAuthMessage env) true)
    ∧ (ensureHaConnection env fetchOk s).acts.length = 4
    ∧ (ensureHaConnection env fetchOk s).state.haConnected = true := by
  subst hf
  unfold Live at hl
  simp [ensureHaConnection, hl]

/-- Witness for the amended C3 at the initial state. -/
theorem c3_witness :
    (Live initState = false ∧ true = true)
    ∧ ((ensureHaConnection envC true initState).acts[1]?
          = some (Act.acceptUp initState.nextSid)
      ∧ (ensureHaConnection envC true initState).acts[2]? = some Act.markLive
      ∧ (ensureHaConnection envC true initState).acts[3]?
          = some (Act.upSend (buildWebsocketAuthMessage envC) true)
      ∧ (ensureHaConnection envC true initState).acts.length = 4
      ∧ (ensureHaConnection envC true initState).state.haConnected = true) :=
  ⟨⟨by decide, rfl⟩, c3_marked_live_before_auth envC true initState (by decide) rfl⟩

/-- C4 counterexample: construction alone, before any downstream connect
request, already opens one upstream connection and leaves the session
live, because the constructor runs `ensureHaConnection` inside
`blockConcurrencyWhile`: the connection is created preemptively, not
lazily. -/
theorem c4_counterexample :
    countOpens (construct envC true).2 = 1
    ∧ Live (construct envC true).1 = true := by
  refine ⟨by decide, by decide⟩

/-- C4 as amended: the upstream connection is opened eagerly at
construction time (one open when the fetch upgrade succeeds); after that,
opening is demand-driven: no event other than a downstream connect
request ever opens an upstream connection. -/
theorem c4_eager_construct_demand_reconnect (env : HaEnv) (fetchOk : Bool)
    (s : DOState) (ev : Ev) (h : isConnectEv ev = false) :
    countOpens (construct env fetchOk).2 = (if fetchOk then 1 else 0)
    ∧ countOpens (step env ev s).2 = 0 := by
  constructor
  · by_cases hf : fetchOk = true <;>
      simp [construct, ensureHaConnection, initState, hf, countOpens, isOpenAct]
  · cases ev with
    | connect f => simp [isConnectEv] at h
    | upMessage data ok =>
        cases hs : s.haSocket with
        | none => simp [step, hs, countOpens]
        | some sock =>
            simp only [step, hs, broadcast]
            apply countOpens_eq_zero
            intro a ha
            obtain ⟨c, _, rfl⟩ := List.mem_map.mp ha
            rfl
    | upClose =>
        cases hs : s.haSocket with
        | none => simp [step, hs, countOpens]
        | some sock =>
            simp only [step, hs]
            apply countOpens_eq_zero
            intro a ha
            obtain ⟨c, _, rfl⟩ := List.mem_map.mp ha
            rfl
    | upError =>
        cases hs : s.haSocket with
        | none => simp [step, hs, countOpens]
        | some sock => simp [step, hs, countOpens]
    | clientMsg cid data ok =>
        cases hs : s.haSocket with
        | none => simp [step, hs, countOpens]
        | some sock =>
            by_cases ho : sock.isOpen <;>
              simp [step, hs, ho, countOpens, List.countP_cons, isOpenAct]
    | clientCloseEv cid =>
        simp [step, countOpens]

/-- Witness for the amended C4. -/
theorem c4_witness :
    isConnectEv Ev.upClose = false
    ∧ (countOpens (construct envC true).2 = (if true then 1 else 0)
        ∧ countOpens (step envC Ev.upClose initState).2 = 0) :=
  ⟨by decide, c4_eager_construct_demand_reconnect envC true initState Ev.upClose (by decide)⟩

/-- The reachable state after construction and one accepted connect:
live, with exactly one registered client. -/
def oneClientState : DOState :=
  (run envC [Ev.connect true] (construct envC true).1).1

/-- C5 counterexample: a transport error on the live upstream socket is a
mid-life loss, and it does move the session to not-live, but contrary to
the claim the registered client is neither closed with 1012 nor removed:
the error listener only clears `haConnected`, and only the close listener
performs the teardown. -/
theorem c5_counterexample :
    (step envC Ev.upError oneClientState).1.haConnected = false
    ∧ (step envC Ev.upError oneClientState).1.clients.length = 1
    ∧ (step envC Ev.upError oneClientState).2 = [] := by
  refine ⟨by decide, by decide, by decide⟩

/-- C5 as amended: on a remote close of the upstream socket the session
becomes not-live, a close with code 1012 and reason
"Home Assistant websocket closed" is attempted for every registered
client, and the active set is cleared; on a transport error only the
liveness flag is cleared, and the clients are torn down when the
accompanying close event fires. -/
theorem c5_teardown_on_close_only (env : HaEnv) (s : DOState) (sock : HASocket)
    (h : s.haSocket = some sock) :
    (step env Ev.upClose s).1.clients = []
    ∧ (step env Ev.upClose s).1.haConnected = false
    ∧ (step env Ev.upClose s).1.haSocket = none
    ∧ (step env Ev.upClose s).2
        = s.clients.map
            (fun c => Act.closeClient c.cid 1012 "Home Assistant websocket closed")
    ∧ (step env Ev.upError s).1.clients = s.clients
    ∧ (step env Ev.upError s).1.haConnected = false
    ∧ (step env Ev.upError s).2 = [] := by
  simp [step, h]

/-- Witness for the amended C5 at the one-client live state. -/
theorem c5_witness :
    oneClientState.haSocket = some { sid := 0, isOpen := true }
    ∧ ((step envC Ev.upClose oneClientState).1.clients = []
      ∧ (step envC Ev.upClose oneClientState).1.haConnected = false
      ∧ (step envC Ev.upClose oneClientState).1.haSocket = none
      ∧ (step envC Ev.upClose oneClientState).2
          = oneClientState.clients.map
              (fun c => Act.closeClient c.cid 1012 "Home Assistant websocket closed")
      ∧ (step envC Ev.upError oneClientState).1.clients = oneClientState.clients
      ∧ (step envC Ev.upError oneClientState).1.haConnected = false
      ∧ (step envC Ev.upError oneClientState).2 = []) :=
  ⟨by decide, c5_teardown_on_close_only envC oneClientState
    { sid := 0, isOpen := true } (by decide)⟩

/-- C9 counterexample: the first and only message delivered to a freshly
accepted client is the connection-status message, but it is not of the
three-field shape the claim gives: the serialized payload carries an
additional `message` field
("Proxy connected to Home Assistant"), so it differs from the claimed
shape. -/
theorem c9_counterexample :
    (attachClient (construct envC true).1).state.clients.map (fun c => c.received)
        = [[connectionInfoMessage "uuid-0" true]]
    ∧ List.IsInfix ("\"message\":\"Proxy connected to Home Assistant\"").toList
        (connectionInfoMessage "uuid-0" true).toList
    ∧ connectionInfoMessage "uuid-0" true ≠ connectionInfoSpecShape "uuid-0" true := by
  refine ⟨by decide, by decide, by decide⟩

/-- C9 as amended: every accepted client is immediately sent exactly one
JSON status message, before any other traffic, of the four-field shape
with type "connection_info", the fixed human-readable message text, its
freshly assigned client id, and the current upstream-liveness flag. -/
theorem c9_connection_info_first (env : HaEnv) (fetchOk : Bool) (s : DOState)
    (cid : String)
    (h : (handleConnect env fetchOk s).result = ConnectResult.accepted cid) :
    ∃ c, c ∈ (handleConnect env fetchOk s).state.clients
      ∧ c.cid = cid
      ∧ c.received
          = [connectionInfoMessage cid (handleConnect env fetchOk s).state.haConnected] := by
  by_cases hok : (ensureHaConnection env fetchOk s).ok = true
  · simp only [handleConnect, hok, if_true, attachClient] at h ⊢
    simp only [ConnectResult.accepted.injEq] at h
    subst h
    exact ⟨_, List.mem_append_right _ (List.mem_singleton.mpr rfl), rfl, rfl⟩
  · simp [handleConnect, hok] at h

/-- Witness for the amended C9. -/
theorem c9_witness :
    (handleConnect envC true initState).result = ConnectResult.accepted "uuid-0"
    ∧ ∃ c, c ∈ (handleConnect envC true initState).state.clients
        ∧ c.cid = "uuid-0"
        ∧ c.received
            = [connectionInfoMessage "uuid-0"
                (handleConnect envC true initState).state.haConnected] :=
  ⟨by decide, c9_connection_info_first envC true initState "uuid-0" (by decide)⟩

/-- C10: `websocketUrl` rewrites the protocol to `wss:` exactly when the
base protocol is `https:` and to `ws:` otherwise, forces the pathname to
`/api/websocket`, keeps the host, and serializes those components. -/
theorem c10_websocketUrl_components (base : UrlModel) :
    ((websocketUrlParts base).protocol = "wss:" ↔ base.protocol = "https:")
    ∧ ((websocketUrlParts base).protocol = "wss:"
        ∨ (websocketUrlParts base).protocol = "ws:")
    ∧ (websocketUrlParts base).pathname = "/api/websocket"
    ∧ (websocketUrlParts base).host = base.host
    ∧ websocketUrl base
        = (websocketUrlParts base).protocol ++ "//" ++ base.host ++ "/api/websocket" := by
  by_cases h : base.protocol = "https:" <;>
    simp [websocketUrl, websocketUrlParts, urlToString, h]

end HassioWorker
